import Mathlib

/-!
Verification of the client-side personal finance tracker (`src/script.js`).

The script keeps an ordered list of transaction records in memory, mirrors it
to a local-storage slot as JSON on every mutation, and re-renders the list and
three derived totals (income, expense, balance) from scratch after each change.

Shallow embedding conventions:
- JS numbers are modelled as `Rat` (exact arithmetic; NaN is not representable,
  so the result of `parseFloat` enters the model as an explicit parameter).
- The DOM side effects of `addTransactionToDOM` are modelled as a pure record
  of what is rendered for one transaction.
- `addTransaction` reads the form fields, the freshly generated id and the
  formatted date; these enter as parameters.  Its observable outcome (new
  store, whether the blocking alert fired, whether local storage was written)
  is returned as a record.
-/

namespace Script

/-- A transaction record as built in `addTransaction` (script.js lines 67-73):
`id` from `generateID()`, `title` the raw title field, `amount` the
sign-normalised parsed amount, `type` the selector value, `date` a
locale-formatted string. -/
structure Transaction where
  id : Rat
  title : String
  amount : Rat
  type : String
  date : String
deriving Repr, DecidableEq

/-- Observable outcome of one `addTransaction` call: the resulting store,
whether the blocking `alert` fired, and whether `updateLocalStorage` ran. -/
structure AddResult where
  store : List Transaction
  alerted : Bool
  persisted : Bool
deriving Repr, DecidableEq

/-- `generateID` (script.js lines 29-31): `Math.floor(Math.random() * 1000000000)`.
The random draw `r` (in `[0,1)` in JS) is a parameter. -/
def generateID (r : Rat) : Rat :=
  ((⌊r * 1000000000⌋ : Int) : Rat)

/-- `String.prototype.trim` as used on script.js line 50: strips whitespace
from both ends of the string (whitespace per `Char.isWhitespace`). -/
def jsTrim (s : String) : String :=
  { data := ((s.data.dropWhile (fun c => c.isWhitespace)).reverse.dropWhile
      (fun c => c.isWhitespace)).reverse }

/-- `addTransaction` (script.js lines 46-83).  Validation rejects (with an
alert, and without touching the store or local storage) exactly when the
trimmed title or trimmed amount field is empty.  Otherwise the parsed amount
is sign-normalised by the selected type and the record is pushed onto the end
of the store, followed by a local-storage write.  `parsedAmount` stands for
`parseFloat(amountInput.value)`. -/
def addTransaction (ts : List Transaction)
    (titleValue amountValue typeValue : String)
    (parsedAmount : Rat) (newId : Rat) (dateValue : String) : AddResult :=
  if jsTrim titleValue = "" ∨ jsTrim amountValue = "" then
    { store := ts, alerted := true, persisted := false }
  else
    let ty := typeValue
    let amount0 := parsedAmount
    let amount1 := if ty = "expense" ∧ amount0 > 0 then -amount0 else amount0
    let amount2 := if ty = "income" ∧ amount1 < 0 then |amount1| else amount1
    { store := ts ++ [{ id := newId, title := titleValue, amount := amount2,
                        type := ty, date := dateValue }],
      alerted := false, persisted := true }

/-- `deleteTransaction` (script.js lines 89-94):
`transactions.filter(transaction => transaction.id !== id)`. -/
def deleteTransaction (ts : List Transaction) (i : Rat) : List Transaction :=
  ts.filter (fun transaction => decide (transaction.id ≠ i))

/-- `transactions.map(t => t.amount)` (script.js line 126). -/
def amountsOf (ts : List Transaction) : List Rat :=
  ts.map (fun t => t.amount)

/-- `.reduce((acc, item) => (acc += item), 0)` (script.js lines 130, 134). -/
def sumList (l : List Rat) : Rat :=
  l.foldl (fun acc item => acc + item) 0

/-- `totalIncome` of `updateSummary` (script.js lines 128-130): sum of the
strictly positive amounts. -/
def totalIncome (ts : List Transaction) : Rat :=
  sumList ((amountsOf ts).filter (fun item => decide (item > 0)))

/-- `totalExpense` of `updateSummary` (script.js lines 132-134): sum of the
strictly negative amounts, kept negative. -/
def totalExpense (ts : List Transaction) : Rat :=
  sumList ((amountsOf ts).filter (fun item => decide (item < 0)))

/-- `totalBalance` of `updateSummary` (script.js line 136). -/
def totalBalance (ts : List Transaction) : Rat :=
  totalIncome ts + totalExpense ts

/-- What `addTransactionToDOM` (script.js lines 100-119) renders for one
transaction: the css class added to the list item, the sign character, the
displayed magnitude (`Math.abs(transaction.amount)`, before currency
formatting), the title, the date, and the id wired to the delete button. -/
structure RenderedItem where
  cssClass : String
  sign : String
  magnitude : Rat
  title : String
  date : String
  deleteId : Rat
deriving Repr, DecidableEq

/-- `addTransactionToDOM` (script.js lines 100-119) as a pure function from a
transaction to what is rendered for it. -/
def addTransactionToDOM (transaction : Transaction) : RenderedItem :=
  { cssClass := if transaction.amount > 0 then "income" else "expense",
    sign := if transaction.amount > 0 then "+" else "-",
    magnitude := |transaction.amount|,
    title := transaction.title,
    date := transaction.date,
    deleteId := transaction.id }

/-- Modelled from the spec: the JSON values produced and consumed by the
platform builtins `JSON.stringify` / `JSON.parse` used at script.js lines 15
and 21.  The repository contains no serialization code of its own, so the
JSON layer is modelled at the level of parsed JSON values. -/
inductive JsonValue where
  | null
  | bool (b : Bool)
  | num (q : Rat)
  | str (s : String)
  | arr (elems : List JsonValue)
  | obj (fields : List (String × JsonValue))

/-- Modelled from the spec: `JSON.stringify` applied to one transaction object
(script.js line 21), at the level of the JSON value it denotes.  Object keys
appear in the insertion order of script.js lines 67-73. -/
def encodeTransaction (t : Transaction) : JsonValue :=
  .obj [("id", .num t.id), ("title", .str t.title), ("amount", .num t.amount),
        ("type", .str t.type), ("date", .str t.date)]

/-- Modelled from the spec: reading one transaction object back from the
parsed JSON (script.js line 15). -/
def decodeTransaction : JsonValue → Option Transaction
  | .obj [("id", .num i), ("title", .str ti), ("amount", .num a),
          ("type", .str ty), ("date", .str d)] =>
      some { id := i, title := ti, amount := a, type := ty, date := d }
  | _ => none

/-- Modelled from the spec: `JSON.stringify(transactions)` (script.js line 21)
at the level of the JSON value it denotes. -/
def encodeStore (ts : List Transaction) : JsonValue :=
  .arr (ts.map encodeTransaction)

/-- Decode a list of JSON values element by element; any failure fails the
whole read. -/
def decodeRecords : List JsonValue → Option (List Transaction)
  | [] => some []
  | j :: rest =>
      match decodeTransaction j, decodeRecords rest with
      | some t, some ts => some (t :: ts)
      | _, _ => none

/-- Modelled from the spec: reading the whole stored array back
(script.js line 15). -/
def decodeStore : JsonValue → Option (List Transaction)
  | .arr js => decodeRecords js
  | _ => none

/-- The state of the local-storage slot `transactions` as seen at load time:
the key may be absent (`getItem` returns null), hold a string that is not
valid JSON, or hold a string parsing to JSON value `j`. -/
inductive StoredValue where
  | missing
  | invalid
  | value (j : JsonValue)

/-- JavaScript truthiness of a parsed JSON value, as used by `|| []` on
script.js line 15. -/
def jsTruthy : JsonValue → Bool
  | .null => false
  | .bool b => b
  | .num q => decide (q ≠ 0)
  | .str s => decide (s ≠ "")
  | .arr _ => true
  | .obj _ => true

/-- The line `let transactions = JSON.parse(localStorage.getItem(..)) || []`
(script.js line 15).  When the key is absent, `getItem` returns null and
`JSON.parse(null)` yields the JSON value null, which `||` replaces with `[]`.
When the stored string is not valid JSON, `JSON.parse` throws a SyntaxError
that nothing catches (`Except.error`).  Otherwise the parsed value is kept
unless it is falsy, in which case `||` replaces it with `[]`. -/
def loadTransactions : StoredValue → Except Unit JsonValue
  | .missing => .ok (.arr [])
  | .invalid => .error ()
  | .value j => .ok (if jsTruthy j then j else .arr [])

/-- The stores reachable by the script: the initial-load fallback empty list,
followed by any sequence of form submissions (with ids drawn by `generateID`
from a random `r ∈ [0,1)`) and deletions. -/
inductive Reachable : List Transaction → Prop where
  | init : Reachable []
  | add (ts : List Transaction) (titleValue amountValue typeValue : String)
      (parsedAmount r : Rat) (dateValue : String) :
      0 ≤ r → r < 1 → Reachable ts →
      Reachable (addTransaction ts titleValue amountValue typeValue
        parsedAmount (generateID r) dateValue).store
  | del (ts : List Transaction) (i : Rat) :
      Reachable ts → Reachable (deleteTransaction ts i)

/-- A concrete record used to evaluate the theorems: what
`addTransaction` builds from title "Pay", amount "1", type income, random
draw 0. -/
def sampleRec : Transaction :=
  { id := 0, title := "Pay", amount := 1, type := "income", date := "1/1/2024" }

/-- A copy of `sampleRec` whose type tag was tampered into "expense" while
the signed amount stayed positive. -/
def tamperedRec : Transaction :=
  { id := 0, title := "Pay", amount := 1, type := "expense", date := "1/1/2024" }

/-- A concrete record with amount exactly zero. -/
def zeroRec : Transaction :=
  { id := 3, title := "Zero", amount := 0, type := "income", date := "1/1/2024" }

/-- The record built by the second submission of `dupStore`: its id collides
with the id of `sampleRec` because the random draw repeated. -/
def rentRec : Transaction :=
  { id := 0, title := "Rent", amount := -2, type := "expense", date := "1/1/2024" }

/-- A concrete one-element store reached by a single valid submission. -/
def oneStore : List Transaction :=
  (addTransaction [] "Pay" "1" "income" 1 (generateID 0) "1/1/2024").store

/-- A concrete store reached by two valid submissions whose random draws
coincide, so both records carry id 0. -/
def dupStore : List Transaction :=
  (addTransaction oneStore "Rent" "2" "expense" 2 (generateID 0) "1/1/2024").store

theorem sumList_nil : sumList [] = 0 := rfl

theorem foldl_add_shift (l : List Rat) (a : Rat) :
    l.foldl (fun acc item => acc + item) a = a + sumList l := by
  induction l generalizing a with
  | nil => simp [sumList]
  | cons x t ih =>
      show List.foldl _ (a + x) t = _
      rw [ih (a + x)]
      have : sumList (x :: t) = (0 + x) + sumList t := by
        show List.foldl _ (0 + x) t = _
        rw [ih (0 + x)]
      rw [this]
      ring

theorem sumList_cons (x : Rat) (l : List Rat) :
    sumList (x :: l) = x + sumList l := by
  show List.foldl _ (0 + x) l = _
  rw [foldl_add_shift]
  ring

theorem sumList_append (l₁ l₂ : List Rat) :
    sumList (l₁ ++ l₂) = sumList l₁ + sumList l₂ := by
  induction l₁ with
  | nil => rw [List.nil_append, sumList_nil]; ring
  | cons x t ih => rw [List.cons_append, sumList_cons, sumList_cons, ih]; ring

theorem sumList_nonneg (l : List Rat) (h : ∀ x ∈ l, 0 ≤ x) :
    0 ≤ sumList l := by
  induction l with
  | nil => rw [sumList_nil]
  | cons x t ih =>
      rw [sumList_cons]
      have hx := h x (List.mem_cons_self x t)
      have ht := ih (fun y hy => h y (List.mem_cons_of_mem x hy))
      linarith

theorem sumList_nonpos (l : List Rat) (h : ∀ x ∈ l, x ≤ 0) :
    sumList l ≤ 0 := by
  induction l with
  | nil => rw [sumList_nil]
  | cons x t ih =>
      rw [sumList_cons]
      have hx := h x (List.mem_cons_self x t)
      have ht := ih (fun y hy => h y (List.mem_cons_of_mem x hy))
      linarith

theorem sumList_filter_split (l : List Rat) :
    sumList (l.filter (fun item => decide (item > 0))) +
      sumList (l.filter (fun item => decide (item < 0))) = sumList l := by
  induction l with
  | nil => simp [sumList_nil]
  | cons x t ih =>
      by_cases hp : x > 0
      · have hn : ¬ x < 0 := by linarith
        simp only [List.filter_cons, hp, hn, decide_eq_true_eq, if_pos, if_neg,
          not_false_eq_true, sumList_cons]
        linarith
      · by_cases hn : x < 0
        · simp only [List.filter_cons, hp, hn, decide_eq_true_eq, if_pos,
            if_neg, not_false_eq_true, sumList_cons]
          linarith
        · have hz : x = 0 := le_antisymm (not_lt.mp hp) (not_lt.mp hn)
          simp only [List.filter_cons, hp, hn, decide_eq_true_eq, if_neg,
            not_false_eq_true, sumList_cons]
          rw [hz]
          linarith

/-- Claim C1: for every record set, the total income of the aggregator equals the
sum of the positive amounts and is nonnegative, the total expense equals the
sum of the negative amounts and is nonpositive, the balance equals
income + expense exactly, and the balance equals the sum of all signed
amounts in the store. -/
theorem updateSummary_correct (ts : List Transaction) :
    totalIncome ts = sumList ((amountsOf ts).filter (fun item => decide (item > 0))) ∧
    0 ≤ totalIncome ts ∧
    totalExpense ts = sumList ((amountsOf ts).filter (fun item => decide (item < 0))) ∧
    totalExpense ts ≤ 0 ∧
    totalBalance ts = totalIncome ts + totalExpense ts ∧
    totalBalance ts = sumList (amountsOf ts) := by
  refine ⟨rfl, ?_, rfl, ?_, rfl, ?_⟩
  · apply sumList_nonneg
    intro x hx
    have hx' : decide (x > 0) = true := (List.mem_filter.mp hx).2
    have : x > 0 := of_decide_eq_true hx'
    linarith
  · apply sumList_nonpos
    intro x hx
    have hx' : decide (x < 0) = true := (List.mem_filter.mp hx).2
    have : x < 0 := of_decide_eq_true hx'
    linarith
  · exact sumList_filter_split (amountsOf ts)

theorem addTransaction_invalid_eq (ts : List Transaction)
    (titleValue amountValue typeValue : String) (parsedAmount newId : Rat)
    (dateValue : String) (h : jsTrim titleValue = "" ∨ jsTrim amountValue = "") :
    addTransaction ts titleValue amountValue typeValue parsedAmount newId dateValue
      = { store := ts, alerted := true, persisted := false } := by
  unfold addTransaction
  rw [if_pos h]

theorem addTransaction_valid_eq (ts : List Transaction)
    (titleValue amountValue typeValue : String) (parsedAmount newId : Rat)
    (dateValue : String) (h : ¬(jsTrim titleValue = "" ∨ jsTrim amountValue = "")) :
    addTransaction ts titleValue amountValue typeValue parsedAmount newId dateValue
      = { store := ts ++
            [{ id := newId, title := titleValue,
               amount :=
                 (if typeValue = "income" ∧
                     (if typeValue = "expense" ∧ parsedAmount > 0
                       then -parsedAmount else parsedAmount) < 0
                   then abs (if typeValue = "expense" ∧ parsedAmount > 0
                       then -parsedAmount else parsedAmount)
                   else if typeValue = "expense" ∧ parsedAmount > 0
                       then -parsedAmount else parsedAmount),
               type := typeValue, date := dateValue }],
          alerted := false, persisted := true } := by
  unfold addTransaction
  rw [if_neg h]

theorem addTransaction_valid_store (ts : List Transaction)
    (titleValue amountValue typeValue : String) (parsedAmount newId : Rat)
    (dateValue : String) (h : ¬(jsTrim titleValue = "" ∨ jsTrim amountValue = "")) :
    (addTransaction ts titleValue amountValue typeValue parsedAmount newId
        dateValue).store
      = ts ++
        [{ id := newId, title := titleValue,
           amount :=
             (if typeValue = "income" ∧
                 (if typeValue = "expense" ∧ parsedAmount > 0
                   then -parsedAmount else parsedAmount) < 0
               then abs (if typeValue = "expense" ∧ parsedAmount > 0
                   then -parsedAmount else parsedAmount)
               else if typeValue = "expense" ∧ parsedAmount > 0
                   then -parsedAmount else parsedAmount),
           type := typeValue, date := dateValue }] := by
  rw [addTransaction_valid_eq ts titleValue amountValue typeValue parsedAmount
    newId dateValue h]

/-- Claim C2: for every valid form submission (non-empty trimmed title and
amount fields), after `addTransaction` the size of the store increases by
exactly one, and the stored amount of the new record is nonnegative when the selected type
is income and nonpositive when it is expense, regardless of the sign of the
parsed amount the user entered. -/
theorem addTransaction_grows_and_signs (ts : List Transaction)
    (titleValue amountValue typeValue : String) (parsedAmount newId : Rat)
    (dateValue : String)
    (ht : jsTrim titleValue ≠ "") (ha : jsTrim amountValue ≠ "") :
    (addTransaction ts titleValue amountValue typeValue parsedAmount newId
        dateValue).store.length = ts.length + 1 ∧
    ∃ t : Transaction,
      (addTransaction ts titleValue amountValue typeValue parsedAmount newId
          dateValue).store = ts ++ [t] ∧
      (typeValue = "income" → 0 ≤ t.amount) ∧
      (typeValue = "expense" → t.amount ≤ 0) := by
  have h : ¬(jsTrim titleValue = "" ∨ jsTrim amountValue = "") := by
    push_neg
    exact ⟨ht, ha⟩
  rw [addTransaction_valid_store ts titleValue amountValue typeValue
    parsedAmount newId dateValue h]
  refine ⟨by simp, ⟨_, rfl, ?_, ?_⟩⟩
  · intro hty
    subst hty
    show 0 ≤ (if ("income" : String) = "income" ∧
        (if ("income" : String) = "expense" ∧ parsedAmount > 0
          then -parsedAmount else parsedAmount) < 0
      then abs (if ("income" : String) = "expense" ∧ parsedAmount > 0
          then -parsedAmount else parsedAmount)
      else if ("income" : String) = "expense" ∧ parsedAmount > 0
          then -parsedAmount else parsedAmount)
    have hinner : ¬(("income" : String) = "expense" ∧ parsedAmount > 0) :=
      fun hc => absurd hc.1 (by decide)
    rw [if_neg hinner]
    by_cases hneg : parsedAmount < 0
    · rw [if_pos (show ("income" : String) = "income" ∧ parsedAmount < 0 from
        ⟨rfl, hneg⟩)]
      exact abs_nonneg _
    · rw [if_neg (show ¬(("income" : String) = "income" ∧ parsedAmount < 0)
        from fun hc => hneg hc.2)]
      exact not_lt.mp hneg
  · intro hty
    subst hty
    show (if ("expense" : String) = "income" ∧
        (if ("expense" : String) = "expense" ∧ parsedAmount > 0
          then -parsedAmount else parsedAmount) < 0
      then abs (if ("expense" : String) = "expense" ∧ parsedAmount > 0
          then -parsedAmount else parsedAmount)
      else if ("expense" : String) = "expense" ∧ parsedAmount > 0
          then -parsedAmount else parsedAmount) ≤ 0
    by_cases hpos : parsedAmount > 0
    · rw [if_pos (show ("expense" : String) = "expense" ∧ parsedAmount > 0
        from ⟨rfl, hpos⟩)]
      rw [if_neg (show ¬(("expense" : String) = "income" ∧ -parsedAmount < 0)
        from fun hc => absurd hc.1 (by decide))]
      linarith
    · rw [if_neg (show ¬(("expense" : String) = "expense" ∧ parsedAmount > 0)
        from fun hc => hpos hc.2)]
      rw [if_neg (show ¬(("expense" : String) = "income" ∧ parsedAmount < 0)
        from fun hc => absurd hc.1 (by decide))]
      exact not_lt.mp hpos

/-- Claim C2 witness: a concrete valid income submission grows the empty
store to length one. -/
theorem addTransaction_grows_and_signs_witness :
    (addTransaction [] "Pay" "1000" "income" 1000 7 "1/1/2024").store.length
      = ([] : List Transaction).length + 1 :=
  (addTransaction_grows_and_signs [] "Pay" "1000" "income" 1000 7 "1/1/2024"
    (by decide) (by decide)).1

/-- Claim C3: after `deleteTransaction ts i` the store contains no record
whose id equals `i`, and if no record had id `i` the store is unchanged. -/
theorem deleteTransaction_correct (ts : List Transaction) (i : Rat) :
    (∀ t ∈ deleteTransaction ts i, t.id ≠ i) ∧
    ((∀ t ∈ ts, t.id ≠ i) → deleteTransaction ts i = ts) := by
  constructor
  · intro t ht
    exact of_decide_eq_true (List.mem_filter.mp ht).2
  · intro h
    apply List.filter_eq_self.mpr
    intro t ht
    exact decide_eq_true (h t ht)

/-- Claim C3 witness: deleting the absent id 2 from a one-record store leaves
it unchanged. -/
theorem deleteTransaction_correct_witness :
    deleteTransaction [sampleRec] 2 = [sampleRec] :=
  (deleteTransaction_correct [sampleRec] 2).2 (by decide)

/-- Claim C4: a submission with empty trimmed title or amount is rejected
with the alert, leaving the store unchanged and writing nothing to local
storage; any submission with both fields non-empty is accepted (alert-free,
persisted, record appended) whatever the parsed amount and the generated id
are, so no further validation (non-numeric amount, negative zero, duplicate
id) takes place. -/
theorem addTransaction_validation (ts : List Transaction)
    (titleValue amountValue typeValue : String) (parsedAmount newId : Rat)
    (dateValue : String) :
    ((jsTrim titleValue = "" ∨ jsTrim amountValue = "") →
      addTransaction ts titleValue amountValue typeValue parsedAmount newId
          dateValue
        = { store := ts, alerted := true, persisted := false }) ∧
    (¬(jsTrim titleValue = "" ∨ jsTrim amountValue = "") →
      (addTransaction ts titleValue amountValue typeValue parsedAmount newId
          dateValue).alerted = false ∧
      (addTransaction ts titleValue amountValue typeValue parsedAmount newId
          dateValue).persisted = true ∧
      ∃ t, (addTransaction ts titleValue amountValue typeValue parsedAmount
          newId dateValue).store = ts ++ [t]) := by
  constructor
  · intro h
    exact addTransaction_invalid_eq ts titleValue amountValue typeValue
      parsedAmount newId dateValue h
  · intro h
    refine ⟨?_, ?_, ⟨_, addTransaction_valid_store ts titleValue amountValue
      typeValue parsedAmount newId dateValue h⟩⟩
    · rw [addTransaction_valid_eq ts titleValue amountValue typeValue
        parsedAmount newId dateValue h]
    · rw [addTransaction_valid_eq ts titleValue amountValue typeValue
        parsedAmount newId dateValue h]

/-- Claim C4 witness: an empty-title submission leaves a concrete store
unchanged without persisting, and a non-empty submission with a duplicate id
is still accepted. -/
theorem addTransaction_validation_witness :
    addTransaction [sampleRec] "" "5" "income" 5 7 "1/1/2024"
      = { store := [sampleRec], alerted := true, persisted := false } ∧
    (addTransaction [sampleRec] "Rent" "5" "income" 5 0 "1/1/2024").alerted
      = false :=
  ⟨(addTransaction_validation [sampleRec] "" "5" "income" 5 7 "1/1/2024").1
      (Or.inl (by decide)),
   ((addTransaction_validation [sampleRec] "Rent" "5" "income" 5 0
      "1/1/2024").2 (by decide)).1⟩

/-- Claim C9: an accepted `addTransaction` leaves every pre-existing record
unchanged and appends the new record at the end, and `deleteTransaction i`
keeps the surviving records in their original relative order and keeps every
record whose id differs from `i`. -/
theorem add_delete_frame (ts : List Transaction)
    (titleValue amountValue typeValue : String) (parsedAmount newId : Rat)
    (dateValue : String) (i : Rat) :
    (¬(jsTrim titleValue = "" ∨ jsTrim amountValue = "") →
      ∃ t, (addTransaction ts titleValue amountValue typeValue parsedAmount
          newId dateValue).store = ts ++ [t]) ∧
    List.Sublist (deleteTransaction ts i) ts ∧
    (∀ t ∈ ts, t.id ≠ i → t ∈ deleteTransaction ts i) := by
  refine ⟨?_, ?_, ?_⟩
  · intro h
    exact ⟨_, addTransaction_valid_store ts titleValue amountValue typeValue
      parsedAmount newId dateValue h⟩
  · exact List.filter_sublist ts
  · intro t ht hne
    exact List.mem_filter.mpr ⟨ht, decide_eq_true hne⟩

/-- Claim C9 witness: an accepted submission appends to a concrete one-record
store, and deleting an id not equal to that of the record keeps the record. -/
theorem add_delete_frame_witness :
    (∃ t, (addTransaction [sampleRec] "Rent" "2" "expense" 2 7
        "1/1/2024").store = [sampleRec] ++ [t]) ∧
    sampleRec ∈ deleteTransaction [sampleRec] 2 :=
  ⟨(add_delete_frame [sampleRec] "Rent" "2" "expense" 2 7 "1/1/2024" 2).1
      (by decide),
   (add_delete_frame [sampleRec] "Rent" "2" "expense" 2 7 "1/1/2024" 2).2.2
      sampleRec (by decide) (by decide)⟩

theorem decode_encode_transaction (t : Transaction) :
    decodeTransaction (encodeTransaction t) = some t := by
  cases t
  rfl

theorem decodeRecords_encode (ts : List Transaction) :
    decodeRecords (ts.map encodeTransaction) = some ts := by
  induction ts with
  | nil => rfl
  | cons t rest ih =>
      simp only [List.map_cons, decodeRecords, decode_encode_transaction, ih]

/-- Claim C5: serializing the store to the persistent slot and reloading it
reproduces an equal record set with order preserved (round trip at the level
of the JSON value written by `JSON.stringify` and read by `JSON.parse`). -/
theorem store_roundTrip (ts : List Transaction) :
    decodeStore (encodeStore ts) = some ts := by
  simp only [encodeStore, decodeStore]
  exact decodeRecords_encode ts

/-- Claim C6 counterexample: when the stored transactions string is corrupt
(not valid JSON), initial load does not fall back to the empty list — the
uncaught `JSON.parse` exception makes the load fail. -/
theorem loadTransactions_invalid_fails :
    loadTransactions .invalid = .error () ∧
    loadTransactions .invalid ≠ .ok (.arr []) :=
  ⟨rfl, fun hc => nomatch hc⟩

/-- Claim C6 amended: a missing stored value falls back silently to the empty
list (`JSON.parse(null)` yields null, which `|| []` replaces), and so does any
stored value parsing to a falsy JSON value; but a corrupt (invalid JSON)
value makes `JSON.parse` throw, so the initial load fails instead of falling
back. -/
theorem loadTransactions_fallback :
    loadTransactions .missing = .ok (.arr []) ∧
    loadTransactions .invalid = .error () ∧
    (∀ j : JsonValue, jsTruthy j = false →
      loadTransactions (.value j) = .ok (.arr [])) := by
  refine ⟨rfl, rfl, ?_⟩
  intro j hj
  simp [loadTransactions, hj]

/-- Claim C6 amended witness: the stored JSON value null (falsy) falls back
to the empty list. -/
theorem loadTransactions_fallback_witness :
    loadTransactions (.value .null) = .ok (.arr []) :=
  loadTransactions_fallback.2.2 .null rfl

/-- Claim C7: the presenter derives the css class, the displayed sign and the
displayed magnitude from the stored signed amount only, never from the type
tag: two records that differ only in their type tag render identically. -/
theorem render_ignores_type (t₁ t₂ : Transaction)
    (hamount : t₁.amount = t₂.amount) (htitle : t₁.title = t₂.title)
    (hdate : t₁.date = t₂.date) (hid : t₁.id = t₂.id) :
    addTransactionToDOM t₁ = addTransactionToDOM t₂ ∧
    (addTransactionToDOM t₁).cssClass
      = (if t₁.amount > 0 then "income" else "expense") ∧
    (addTransactionToDOM t₁).sign = (if t₁.amount > 0 then "+" else "-") ∧
    (addTransactionToDOM t₁).magnitude = |t₁.amount| := by
  refine ⟨?_, rfl, rfl, rfl⟩
  unfold addTransactionToDOM
  rw [hamount, htitle, hdate, hid]

/-- Claim C7 witness: an income record and its type-tampered copy render
identically. -/
theorem render_ignores_type_witness :
    addTransactionToDOM sampleRec = addTransactionToDOM tamperedRec :=
  (render_ignores_type sampleRec tamperedRec rfl rfl rfl rfl).1

theorem filter_pos_singleton_zero :
    List.filter (fun item => decide (item > 0)) [(0 : Rat)] = [] := by
  simp

theorem filter_neg_singleton_zero :
    List.filter (fun item => decide (item < 0)) [(0 : Rat)] = [] := by
  simp

/-- Claim C10: a record with amount exactly 0 passes validation and is stored
unchanged for either selected type; the presenter classifies it as an expense
with a "-" sign; and the aggregator counts it in neither total, leaving the
balance unaffected. -/
theorem zero_amount_behavior (ts : List Transaction) (t : Transaction)
    (hz : t.amount = 0)
    (titleValue amountValue : String) (newId : Rat) (dateValue : String)
    (ht : jsTrim titleValue ≠ "") (ha : jsTrim amountValue ≠ "") :
    (addTransactionToDOM t).cssClass = "expense" ∧
    (addTransactionToDOM t).sign = "-" ∧
    totalIncome (ts ++ [t]) = totalIncome ts ∧
    totalExpense (ts ++ [t]) = totalExpense ts ∧
    totalBalance (ts ++ [t]) = totalBalance ts ∧
    (∀ typeValue : String,
      ∃ u, (addTransaction ts titleValue amountValue typeValue 0 newId
          dateValue).store = ts ++ [u] ∧ u.amount = 0) := by
  have hti : totalIncome (ts ++ [t]) = totalIncome ts := by
    simp only [totalIncome, amountsOf, List.map_append, List.map_cons,
      List.map_nil, List.filter_append, sumList_append, hz,
      filter_pos_singleton_zero, sumList_nil, add_zero]
  have hte : totalExpense (ts ++ [t]) = totalExpense ts := by
    simp only [totalExpense, amountsOf, List.map_append, List.map_cons,
      List.map_nil, List.filter_append, sumList_append, hz,
      filter_neg_singleton_zero, sumList_nil, add_zero]
  refine ⟨?_, ?_, hti, hte, ?_, ?_⟩
  · show (if t.amount > 0 then "income" else "expense") = "expense"
    rw [hz]
    exact if_neg (lt_irrefl 0)
  · show (if t.amount > 0 then "+" else "-") = "-"
    rw [hz]
    exact if_neg (lt_irrefl 0)
  · unfold totalBalance
    rw [hti, hte]
  · intro typeValue
    have h : ¬(jsTrim titleValue = "" ∨ jsTrim amountValue = "") := by
      push_neg
      exact ⟨ht, ha⟩
    refine ⟨_, addTransaction_valid_store ts titleValue amountValue typeValue
      0 newId dateValue h, ?_⟩
    show (if typeValue = "income" ∧
        (if typeValue = "expense" ∧ (0 : Rat) > 0 then -(0 : Rat) else 0) < 0
      then abs (if typeValue = "expense" ∧ (0 : Rat) > 0
          then -(0 : Rat) else 0)
      else if typeValue = "expense" ∧ (0 : Rat) > 0
          then -(0 : Rat) else 0) = 0
    rw [if_neg (show ¬(typeValue = "expense" ∧ (0 : Rat) > 0) from
      fun hc => lt_irrefl 0 hc.2)]
    rw [if_neg (show ¬(typeValue = "income" ∧ (0 : Rat) < 0) from
      fun hc => lt_irrefl 0 hc.2)]

/-- Claim C10 witness: a concrete zero-amount record renders as "expense"
with a "-" sign, leaves the balance of a concrete store unchanged, and a
concrete zero-amount submission stores amount 0. -/
theorem zero_amount_behavior_witness :
    (addTransactionToDOM zeroRec).cssClass = "expense" ∧
    (addTransactionToDOM zeroRec).sign = "-" ∧
    totalBalance ([sampleRec] ++ [zeroRec]) = totalBalance [sampleRec] :=
  ⟨(zero_amount_behavior [sampleRec] zeroRec rfl "Zero" "0" 9 "1/1/2024"
      (by decide) (by decide)).1,
   (zero_amount_behavior [sampleRec] zeroRec rfl "Zero" "0" 9 "1/1/2024"
      (by decide) (by decide)).2.1,
   (zero_amount_behavior [sampleRec] zeroRec rfl "Zero" "0" 9 "1/1/2024"
      (by decide) (by decide)).2.2.2.2.1⟩

theorem generateID_zero : generateID 0 = 0 := by
  simp [generateID]

theorem oneStore_eq : oneStore = [sampleRec] := by
  unfold oneStore
  rw [addTransaction_valid_store [] "Pay" "1" "income" 1 (generateID 0)
    "1/1/2024" (by decide)]
  rw [generateID_zero]
  rw [if_neg (show ¬(("income" : String) = "expense" ∧ (1 : Rat) > 0) from
    fun hc => absurd hc.1 (by decide))]
  rw [if_neg (show ¬(("income" : String) = "income" ∧ (1 : Rat) < 0) from
    fun hc => absurd hc.2 (by norm_num))]
  rfl

theorem dupStore_eq : dupStore = [sampleRec, rentRec] := by
  unfold dupStore
  rw [oneStore_eq]
  rw [addTransaction_valid_store [sampleRec] "Rent" "2" "expense" 2
    (generateID 0) "1/1/2024" (by decide)]
  rw [generateID_zero]
  rw [if_pos (show ("expense" : String) = "expense" ∧ (2 : Rat) > 0 from
    ⟨rfl, by norm_num⟩)]
  rw [if_neg (show ¬(("expense" : String) = "income" ∧ -(2 : Rat) < 0) from
    fun hc => absurd hc.1 (by decide))]
  rfl

/-- Claim C8 counterexample: a store reached by two valid submissions whose
random draws coincide holds two records with the same id, so ids are not
unique in every reachable store. -/
theorem reachable_duplicate_ids :
    Reachable dupStore ∧
    ¬ dupStore.Pairwise (fun a b => a.id ≠ b.id) := by
  constructor
  · exact Reachable.add oneStore "Rent" "2" "expense" 2 0 "1/1/2024"
      (by norm_num) (by norm_num)
      (Reachable.add [] "Pay" "1" "income" 1 0 "1/1/2024"
        (by norm_num) (by norm_num) Reachable.init)
  · rw [dupStore_eq]
    intro hp
    exact (List.pairwise_cons.mp hp).1 rentRec (List.mem_cons_self _ _) rfl

/-- Claim C8 amended: in every reachable store the id of each transaction is an
integer in `[0, 10^9)` generated at creation by `generateID`; but uniqueness
is not guaranteed, since the unseeded random draw can repeat (see the
counterexample). -/
theorem reachable_ids_integer (ts : List Transaction) (h : Reachable ts) :
    ∀ t ∈ ts, (t.id).den = 1 ∧ 0 ≤ t.id ∧ t.id < 1000000000 := by
  induction h with
  | init =>
      intro t ht
      exact absurd ht (List.not_mem_nil t)
  | add ts titleValue amountValue typeValue parsedAmount r dateValue hr0 hr1
      hreach ih =>
      intro t ht
      by_cases hv : jsTrim titleValue = "" ∨ jsTrim amountValue = ""
      · rw [addTransaction_invalid_eq ts titleValue amountValue typeValue
          parsedAmount (generateID r) dateValue hv] at ht
        exact ih t ht
      · rw [addTransaction_valid_store ts titleValue amountValue typeValue
          parsedAmount (generateID r) dateValue hv] at ht
        rcases List.mem_append.mp ht with hmem | hmem
        · exact ih t hmem
        · have heq := List.mem_singleton.mp hmem
          subst heq
          refine ⟨Rat.den_intCast _, ?_, ?_⟩
          · show (0 : Rat) ≤ ((⌊r * 1000000000⌋ : Int) : Rat)
            have : (0 : Int) ≤ ⌊r * 1000000000⌋ :=
              Int.floor_nonneg.mpr (by positivity)
            exact_mod_cast this
          · show ((⌊r * 1000000000⌋ : Int) : Rat) < 1000000000
            have : ⌊r * 1000000000⌋ < (1000000000 : Int) :=
              Int.floor_lt.mpr (by push_cast; nlinarith)
            exact_mod_cast this
  | del ts i hreach ih =>
      intro t ht
      exact ih t (List.mem_of_mem_filter ht)

/-- Claim C8 amended witness: the id of the record in a concrete reachable
one-element store is an integer in range. -/
theorem reachable_ids_integer_witness :
    sampleRec.id.den = 1 ∧ 0 ≤ sampleRec.id ∧ sampleRec.id < 1000000000 :=
  reachable_ids_integer oneStore
    (Reachable.add [] "Pay" "1" "income" 1 0 "1/1/2024"
      (by norm_num) (by norm_num) Reachable.init)
    sampleRec (by rw [oneStore_eq]; exact List.mem_singleton.mpr rfl)

end Script
